import Mathlib

/-!
Verification of the telemetry provider abstraction layer of
kitagry/gcp-telemetry-mcp.  The Go adapters (logging, monitoring, trace,
profiler) are shallowly embedded: each generic request/response struct and
each wire-level protobuf struct becomes a Lean structure, every enum switch
becomes a chain of string comparisons (faithful to Go's sequential switch),
and the provider SDK's result iterators become explicit lists of steps fed to
the adapters' bounded fetch loops.  Machine integers are modelled as Int/Nat
with explicit wrap-around where Go casts (int32, uint64 overflow) matter.
float64 values are only ever copied by the adapters on the paths verified
here, so they are represented by Rat; timestamps are opaque Int values.
-/

namespace GcpTelemetry

/-- float64 payload values: the adapters only copy them, never compute. -/
abbrev Float64 := Rat

/-- Timestamps (time.Time / timestamppb) are threaded through opaquely. -/
abbrev Timestamp := Int

/-- Go int32 conversion: two's-complement truncation of a 64-bit int. -/
def toInt32 (n : Int) : Int := (n + 2 ^ 31) % 2 ^ 32 - 2 ^ 31

/-- One step of a provider result iterator: either the next item, or a
non-Done error from it.Next(); running off the end of the list models
iterator.Done (exhaustion). -/
inductive IterStep (α : Type) where
  | item (a : α)
  | fail (msg : String)

/-- A provider result iterator together with its continuation token
(it.PageInfo().Token). -/
structure ProviderIter (α : Type) where
  steps : List (IterStep α)
  token : String

/-- The adapters' bounded fetch loop: call Next at most `fuel` times,
translating each item; break on Done (end of list); abort with the error on
any other failure, discarding items collected so far — exactly the shape of
the Go `for range pageSize { it.Next() ... }` loops. -/
def fetchUpTo {α β : Type} (translate : α → β) :
    Nat → List (IterStep α) → Except String (List β)
  | 0, _ => .ok []
  | _ + 1, [] => .ok []
  | _ + 1, .fail msg :: _ => .error msg
  | n + 1, .item a :: rest =>
    match fetchUpTo translate n rest with
    | .error e => .error e
    | .ok bs => .ok (translate a :: bs)

theorem fetchUpTo_ok_length {α β : Type} (translate : α → β) :
    ∀ (n : Nat) (steps : List (IterStep α)) (bs : List β),
      fetchUpTo translate n steps = .ok bs → bs.length ≤ n := by
  intro n
  induction n with
  | zero =>
    intro steps bs h
    simp only [fetchUpTo] at h
    cases h
    simp
  | succ m ih =>
    intro steps bs h
    cases steps with
    | nil =>
      simp only [fetchUpTo] at h
      cases h
      simp
    | cons s rest =>
      cases s with
      | fail msg => simp only [fetchUpTo] at h; cases h
      | item a =>
        simp only [fetchUpTo] at h
        cases hrec : fetchUpTo translate m rest with
        | error e => rw [hrec] at h; cases h
        | ok cs =>
          rw [hrec] at h
          cases h
          simpa using ih rest cs hrec

theorem fetchUpTo_items {α β : Type} (translate : α → β) :
    ∀ (n : Nat) (items : List α),
      fetchUpTo translate n (items.map .item)
        = .ok ((items.take n).map translate) := by
  intro n
  induction n with
  | zero => intro items; simp [fetchUpTo]
  | succ m ih =>
    intro items
    cases items with
    | nil => simp [fetchUpTo]
    | cons a rest => simp [fetchUpTo, ih rest]

namespace Trace

/-- Generic span model (trace/client.go Span). -/
structure Span where
  spanID : String
  name : String
  startTime : Timestamp
  endTime : Timestamp
  parentID : String := ""
  kind : String := ""
  labels : List (String × String) := []

/-- Generic trace model (trace/client.go Trace). -/
structure TraceData where
  traceID : String
  projectID : String
  spans : List Span

/-- trace/client.go ListTracesRequest. -/
structure ListTracesRequest where
  startTime : Timestamp
  endTime : Timestamp
  filter : String := ""
  orderBy : String := ""
  pageSize : Int := 0
  pageToken : String := ""

/-- trace/client.go PatchTraceRequest. -/
structure PatchTraceRequest where
  traceID : String
  spans : List Span

/-- tracepb.TraceSpan span kind enum (constructors used by the adapter). -/
inductive WireSpanKind where
  | unspecified
  | rpcServer
  | rpcClient
deriving DecidableEq

/-- tracepb.TraceSpan: span ids are unsigned 64-bit integers on the wire. -/
structure WireTraceSpan where
  spanId : Nat
  name : String
  startTime : Timestamp
  endTime : Timestamp
  parentSpanId : Nat := 0
  kind : WireSpanKind := .unspecified
  labels : List (String × String) := []

/-- tracepb.Trace (the project id travels in the surrounding request). -/
structure WireTrace where
  traceId : String
  spans : List WireTraceSpan

/-- tracepb.ListTracesRequest as populated by realTraceClient.ListTraces. -/
structure WireListTracesRequest where
  projectId : String
  startTime : Timestamp
  endTime : Timestamp
  pageSize : Int
  filter : String := ""
  orderBy : String := ""
  pageToken : String := ""

/-- tracepb.PatchTracesRequest as populated by realTraceClient.PatchTraces. -/
structure WirePatchTracesRequest where
  projectId : String
  traces : List WireTrace

/-- parseSpanID (trace/client.go): empty string maps to 0, otherwise the
polynomial rolling hash hash = hash*31 + uint64(char) over the string's
runes, with uint64 wrap-around. -/
def parseSpanID (spanID : String) : Nat :=
  if spanID = "" then 0
  else spanID.data.foldl (fun hash c => (hash * 31 + c.toNat) % 2 ^ 64) 0

/-- One lowercase hex digit. -/
def hexDigit (n : Nat) : Char :=
  if n < 10 then Char.ofNat (48 + n) else Char.ofNat (87 + n)

/-- formatSpanID (trace/client.go): 0 maps to the empty string, any other
uint64 is rendered with %016x, i.e. 16 lowercase hex digits. -/
def formatSpanID (spanID : Nat) : String :=
  if spanID = 0 then ""
  else String.mk ((List.range 16).map fun i => hexDigit (spanID / 16 ^ (15 - i) % 16))

/-- The effective page size of ListTraces: default 100 when not positive. -/
def effListTracesPageSize (req : ListTracesRequest) : Int :=
  if req.pageSize ≤ 0 then 100 else req.pageSize

/-- The wire request built by realTraceClient.ListTraces (filter, order-by
and token are set only when non-empty, which coincides with the proto zero
value). -/
def mkListTracesWireReq (projectID : String) (req : ListTracesRequest) :
    WireListTracesRequest :=
  { projectId := projectID
    startTime := req.startTime
    endTime := req.endTime
    pageSize := toInt32 (effListTracesPageSize req)
    filter := if req.filter ≠ "" then req.filter else ""
    orderBy := if req.orderBy ≠ "" then req.orderBy else ""
    pageToken := if req.pageToken ≠ "" then req.pageToken else "" }

/-- convertProtoToTrace (trace/client.go): wire span ids are rendered with
formatSpanID, a zero parent id stays the empty string, and the span kind
falls back to the string UNSPECIFIED. -/
def convertProtoToTrace (traceProto : WireTrace) (projectID : String) : TraceData :=
  { traceID := traceProto.traceId
    projectID := projectID
    spans := traceProto.spans.map fun spanProto =>
      { spanID := formatSpanID spanProto.spanId
        name := spanProto.name
        startTime := spanProto.startTime
        endTime := spanProto.endTime
        parentID := if spanProto.parentSpanId ≠ 0 then formatSpanID spanProto.parentSpanId else ""
        kind := match spanProto.kind with
          | .rpcServer => "RPC_SERVER"
          | .rpcClient => "RPC_CLIENT"
          | .unspecified => "UNSPECIFIED"
        labels := spanProto.labels } }

/-- realTraceClient.ListTraces: builds the wire request, then loops
for i := 0; i <= pageSize; i++ over the iterator, i.e. pageSize + 1 pulls. -/
def realListTraces (projectID : String)
    (provider : WireListTracesRequest → ProviderIter WireTrace)
    (req : ListTracesRequest) : Except String (List TraceData) :=
  let pageSize := effListTracesPageSize req
  let pbReq := mkListTracesWireReq projectID req
  let it := provider pbReq
  fetchUpTo (fun t => convertProtoToTrace t projectID) (pageSize.toNat + 1) it.steps

/-- realTraceClient.PatchTraces: hashes caller span ids with parseSpanID,
maps the kind strings RPC_SERVER / RPC_CLIENT and defaults the rest to
SPAN_KIND_UNSPECIFIED, and wraps everything in a single-trace patch. -/
def mkPatchTracesWireReq (projectID : String) (req : PatchTraceRequest) :
    WirePatchTracesRequest :=
  { projectId := projectID
    traces := [{ traceId := req.traceID
                 spans := req.spans.map fun span =>
                   { spanId := parseSpanID span.spanID
                     name := span.name
                     startTime := span.startTime
                     endTime := span.endTime
                     parentSpanId := if span.parentID ≠ "" then parseSpanID span.parentID else 0
                     kind := if span.kind = "RPC_SERVER" then .rpcServer
                       else if span.kind = "RPC_CLIENT" then .rpcClient
                       else .unspecified
                     labels := span.labels } }] }

end Trace


namespace Logging

/-- Provider severity enum (cloud.google.com/go/logging Severity values the
adapter uses). -/
inductive Severity where
  | debug
  | info
  | warning
  | error
  | critical
deriving DecidableEq

/-- logging/client.go LogEntry.  The structured payload map carries opaque
values; the adapter only tests it for nil and copies it, so entries are
modelled as string pairs. -/
structure LogEntry where
  severity : String
  message : String
  labels : List (String × String) := []
  payload : Option (List (String × String)) := none
  timestamp : Timestamp := 0

/-- The payload handed to logger.Log: the structured map verbatim when
present, otherwise the message string. -/
inductive WirePayload where
  | structured (p : List (String × String))
  | text (s : String)
deriving DecidableEq

/-- The logging.Entry record the adapter hands to logger.Log. -/
structure WireLogEntry where
  severity : Severity
  labels : List (String × String)
  payload : WirePayload
deriving DecidableEq

/-- Everything observable about one realLoggingClient.WriteEntry call: which
logger was used, the entry handed to logger.Log, whether the deferred
logger.Flush() ran before returning, and the error value WriteEntry itself
returned. -/
structure WriteEntryOutcome where
  logName : String
  logged : WireLogEntry
  flushed : Bool
  err : Option String
deriving DecidableEq

/-- realLoggingClient.WriteEntry.  `flushErr` is the error the deferred
logger.Flush() call would report for this buffered write; the Go code
discards it (the defer statement ignores Flush's return value) and the
function body ends in an unconditional `return nil`, so the outcome's err is
none whatever flushErr is.  The severity switch and the payload preference
are translated branch for branch. -/
def writeEntry (flushErr : Option String) (logName : String) (entry : LogEntry) :
    WriteEntryOutcome :=
  let severity : Severity :=
    if entry.severity = "DEBUG" then .debug
    else if entry.severity = "INFO" then .info
    else if entry.severity = "WARNING" then .warning
    else if entry.severity = "ERROR" then .error
    else if entry.severity = "CRITICAL" then .critical
    else .info
  let payload : WirePayload :=
    match entry.payload with
    | some p => .structured p
    | none => .text entry.message
  { logName := logName
    logged := { severity := severity, labels := entry.labels, payload := payload }
    flushed := true
    err := none }

end Logging

namespace Profiler

/-- profiler client Deployment (generic model). -/
structure Deployment where
  projectID : String
  target : String
  labels : List (String × String) := []
deriving DecidableEq

/-- profiler client Profile (generic model); ProfileType is a string type in
the source. -/
structure Profile where
  name : String
  profileType : String
  duration : String
  labels : List (String × String) := []
  startTime : Timestamp
  profileBytes : String := ""
  deployment : Option Deployment := none
deriving DecidableEq

/-- profiler client ListProfilesRequest. -/
structure ListProfilesRequest where
  projectID : String
  pageSize : Int := 0
  pageToken : String := ""

/-- cloudprofiler API Deployment. -/
structure ApiDeployment where
  projectId : String
  target : String
  labels : List (String × String) := []
deriving DecidableEq

/-- cloudprofiler API Profile as returned by the list call. -/
structure ApiProfile where
  name : String
  profileType : String
  duration : String
  labels : List (String × String) := []
  profileBytes : String := ""
  deployment : Option ApiDeployment := none
deriving DecidableEq

/-- cloudprofiler list response: a page of profiles plus a token (the
adapter reads only the Profiles field). -/
structure ApiListProfilesResponse where
  profiles : List ApiProfile
  nextPageToken : String := ""

/-- The list call realProfilerClient.ListProfiles issues: parent is always
set; PageSize is attached only when req.PageSize > 0 and PageToken only when
non-empty (Option none = option not applied to the call). -/
structure ProfilesListCall where
  parent : String
  pageSize : Option Int
  pageToken : Option String
deriving DecidableEq

/-- convertAPIProfileToProfile: fields are copied, the deployment is
translated, and StartTime is stamped with the adapter's local clock
(time.Now()), modelled as the `now` parameter. -/
def convertAPIProfileToProfile (now : Timestamp) (apiProfile : ApiProfile) : Profile :=
  { name := apiProfile.name
    profileType := apiProfile.profileType
    duration := apiProfile.duration
    labels := apiProfile.labels
    profileBytes := apiProfile.profileBytes
    deployment := apiProfile.deployment.map fun d =>
      { projectID := d.projectId, target := d.target, labels := d.labels }
    startTime := now }

/-- The call options realProfilerClient.ListProfiles applies. -/
def mkListProfilesCall (projectID : String) (req : ListProfilesRequest) :
    ProfilesListCall :=
  { parent := "projects/" ++ projectID
    pageSize := if req.pageSize > 0 then some req.pageSize else none
    pageToken := if req.pageToken ≠ "" then some req.pageToken else none }

/-- realProfilerClient.ListProfiles: one provider call, errors propagate,
and every profile of the response page is converted — there is no local
bound on the number of returned items. -/
def realListProfiles (now : Timestamp) (projectID : String)
    (provider : ProfilesListCall → Except String ApiListProfilesResponse)
    (req : ListProfilesRequest) : Except String (List Profile) :=
  match provider (mkListProfilesCall projectID req) with
  | .error e => .error e
  | .ok response => .ok (response.profiles.map (convertAPIProfileToProfile now))

end Profiler

namespace Monitoring

/-- monitoring MetricValue (value float64, timestamp). -/
structure MetricValue where
  value : Float64
  timestamp : Timestamp
deriving DecidableEq

/-- monitoring MetricDescriptor (generic model). -/
structure MetricDescriptor where
  type : String
  metricKind : String
  valueType : String
  description : String := ""
  displayName : String := ""
  labels : List (String × String) := []
deriving DecidableEq

/-- monitoring TimeSeriesData. -/
structure TimeSeriesData where
  metricType : String
  metricLabels : List (String × String) := []
  resourceType : String
  values : List MetricValue
deriving DecidableEq

/-- monitoring CreateMetricRequest. -/
structure CreateMetricRequest where
  metricDescriptor : MetricDescriptor
deriving DecidableEq

/-- monitoring WriteTimeSeriesRequest. -/
structure WriteTimeSeriesRequest where
  timeSeries : List TimeSeriesData
deriving DecidableEq

/-- monitoring AggregationConfig. -/
structure AggregationConfig where
  alignmentPeriod : String := ""
  perSeriesAligner : String := ""
  crossSeriesReducer : String := ""
  groupByFields : List String := []

/-- monitoring ListTimeSeriesRequest (paginated version). -/
structure ListTimeSeriesRequest where
  filter : String := ""
  intervalStart : Timestamp := 0
  intervalEnd : Timestamp := 0
  aggregation : Option AggregationConfig := none
  pageSize : Int := 0
  pageToken : String := ""

/-- monitoring ListMetricDescriptorsRequest. -/
structure ListMetricDescriptorsRequest where
  filter : String := ""
  pageSize : Int := 0
  pageToken : String := ""

/-- monitoring ListAvailableMetricsRequest. -/
structure ListAvailableMetricsRequest where
  filter : String := ""
  pageSize : Int := 0
  pageToken : String := ""

/-- monitoring MetricLabel (part of AvailableMetric). -/
structure MetricLabel where
  key : String
  valueType : String
  description : String
deriving DecidableEq

/-- monitoring AvailableMetric. -/
structure AvailableMetric where
  type : String
  displayName : String
  description : String
  metricKind : String
  valueType : String
  unit : String := ""
  labels : List MetricLabel := []
  launchStage : String := ""
deriving DecidableEq

/-- monitoring ListTimeSeriesResponse. -/
structure ListTimeSeriesResponse where
  timeSeries : List TimeSeriesData
  nextPageToken : String := ""
deriving DecidableEq

/-- monitoring ListMetricDescriptorsResponse. -/
structure ListMetricDescriptorsResponse where
  descriptors : List MetricDescriptor
  nextPageToken : String := ""
deriving DecidableEq

/-- metric.MetricDescriptor_MetricKind wire enum. -/
inductive WireMetricKind where
  | unspecified
  | gauge
  | delta
  | cumulative
deriving DecidableEq

/-- metric.MetricDescriptor_ValueType wire enum. -/
inductive WireValueType where
  | unspecified
  | bool
  | int64
  | double
  | string
  | distribution
deriving DecidableEq

/-- monitoringpb.TypedValue: the oneof wire value of a point. -/
inductive WireTypedValue where
  | doubleValue (v : Float64)
  | int64Value (v : Int)
  | boolValue (b : Bool)
  | stringValue (s : String)
  | distributionValue
deriving DecidableEq

/-- Whether a wire typed value uses the DoubleValue arm of the oneof. -/
def WireTypedValue.isDouble : WireTypedValue → Bool
  | .doubleValue _ => true
  | _ => false

/-- monitoringpb.Point: the write path sets only the interval end. -/
structure WirePoint where
  intervalStart : Timestamp := 0
  intervalEnd : Timestamp
  value : WireTypedValue
deriving DecidableEq

/-- metric.Metric on the wire. -/
structure WireMetric where
  type : String
  labels : List (String × String) := []
deriving DecidableEq

/-- monitoredres.MonitoredResource (only the type is populated). -/
structure WireMonitoredResource where
  type : String
deriving DecidableEq

/-- monitoringpb.TimeSeries on the wire. -/
structure WireTimeSeries where
  metric : WireMetric
  resource : WireMonitoredResource
  points : List WirePoint
deriving DecidableEq

/-- api.LabelDescriptor on the wire (the fields the adapter reads). -/
structure WireLabelDescriptor where
  key : String
  description : String := ""
deriving DecidableEq

/-- api.LaunchStage: the enum code together with what its String() method
renders (the SDK's name table is carried as data, not re-modelled). -/
structure WireLaunchStage where
  code : Int
  str : String
deriving DecidableEq

/-- metric.MetricDescriptor on the wire. -/
structure WireMetricDescriptor where
  type : String
  metricKind : WireMetricKind := .unspecified
  valueType : WireValueType := .unspecified
  description : String := ""
  displayName : String := ""
  unit : String := ""
  labels : List WireLabelDescriptor := []
  launchStage : WireLaunchStage := ⟨0, ""⟩
deriving DecidableEq

/-- monitoringpb.CreateMetricDescriptorRequest. -/
structure WireCreateMetricDescriptorRequest where
  name : String
  metricDescriptor : WireMetricDescriptor
deriving DecidableEq

/-- monitoringpb.CreateTimeSeriesRequest. -/
structure WireCreateTimeSeriesRequest where
  name : String
  timeSeries : List WireTimeSeries
deriving DecidableEq

/-- monitoringpb.Aggregation per-series aligner (values used plus the proto
zero value ALIGN_NONE). -/
inductive WireAligner where
  | alignNone
  | alignMean
  | alignMax
  | alignMin
  | alignSum
deriving DecidableEq

/-- monitoringpb.Aggregation cross-series reducer (values used plus the
proto zero value REDUCE_NONE). -/
inductive WireReducer where
  | reduceNone
  | reduceMean
  | reduceMax
  | reduceMin
  | reduceSum
deriving DecidableEq

/-- monitoringpb.Aggregation; the alignment period is a durationpb value in
nanoseconds. -/
structure WireAggregation where
  alignmentPeriod : Int
  perSeriesAligner : WireAligner := .alignNone
  crossSeriesReducer : WireReducer := .reduceNone
  groupByFields : List String := []
deriving DecidableEq

/-- monitoringpb.ListTimeSeriesRequest as populated by the adapter. -/
structure WireListTimeSeriesRequest where
  name : String
  filter : String
  intervalStart : Timestamp
  intervalEnd : Timestamp
  pageSize : Int
  pageToken : String := ""
  aggregation : Option WireAggregation := none

/-- monitoringpb.ListMetricDescriptorsRequest as populated by the adapter
(used by both ListMetricDescriptors and ListAvailableMetrics). -/
structure WireListMetricDescriptorsRequest where
  name : String
  filter : String
  pageSize : Int
  pageToken : String := ""

/-- parseDuration (monitoring client): time.ParseDuration is stdlib code
outside this repository, so it enters as the `goParse` oracle returning the
parsed duration in nanoseconds or none on failure; the adapter substitutes
60 seconds whenever parsing fails. -/
def parseDuration (goParse : String → Option Int) (s : String) : Int :=
  match goParse s with
  | some d => d
  | none => 60 * 1000000000

/-- The monitoringpb.Aggregation the adapter builds: unrecognized or unset
aligner strings fall back to ALIGN_MEAN; the reducer and the group-by fields
are applied only when the reducer string is non-empty. -/
def mkAggregation (goParse : String → Option Int) (agg : AggregationConfig) :
    WireAggregation :=
  { alignmentPeriod := parseDuration goParse agg.alignmentPeriod
    perSeriesAligner :=
      if agg.perSeriesAligner = "ALIGN_MEAN" then .alignMean
      else if agg.perSeriesAligner = "ALIGN_MAX" then .alignMax
      else if agg.perSeriesAligner = "ALIGN_MIN" then .alignMin
      else if agg.perSeriesAligner = "ALIGN_SUM" then .alignSum
      else .alignMean
    crossSeriesReducer :=
      if agg.crossSeriesReducer ≠ "" then
        if agg.crossSeriesReducer = "REDUCE_MEAN" then .reduceMean
        else if agg.crossSeriesReducer = "REDUCE_MAX" then .reduceMax
        else if agg.crossSeriesReducer = "REDUCE_MIN" then .reduceMin
        else if agg.crossSeriesReducer = "REDUCE_SUM" then .reduceSum
        else .reduceNone
      else .reduceNone
    groupByFields := if agg.crossSeriesReducer ≠ "" then agg.groupByFields else [] }

/-- realMonitoringClient.CreateMetricDescriptor: the metric-kind switch
starts from GAUGE and the value-type switch from DOUBLE, so unrecognized
strings keep those defaults; only Type, MetricKind, ValueType, Description
and DisplayName are copied into the wire descriptor. -/
def mkCreateMetricDescriptorWireReq (projectID : String)
    (req : CreateMetricRequest) : WireCreateMetricDescriptorRequest :=
  let metricKind : WireMetricKind :=
    if req.metricDescriptor.metricKind = "GAUGE" then .gauge
    else if req.metricDescriptor.metricKind = "DELTA" then .delta
    else if req.metricDescriptor.metricKind = "CUMULATIVE" then .cumulative
    else .gauge
  let valueType : WireValueType :=
    if req.metricDescriptor.valueType = "BOOL" then .bool
    else if req.metricDescriptor.valueType = "INT64" then .int64
    else if req.metricDescriptor.valueType = "DOUBLE" then .double
    else if req.metricDescriptor.valueType = "STRING" then .string
    else if req.metricDescriptor.valueType = "DISTRIBUTION" then .distribution
    else .double
  { name := "projects/" ++ projectID
    metricDescriptor :=
      { type := req.metricDescriptor.type
        metricKind := metricKind
        valueType := valueType
        description := req.metricDescriptor.description
        displayName := req.metricDescriptor.displayName } }

/-- realMonitoringClient.WriteTimeSeries: every point is wrapped as a
TypedValue_DoubleValue with only the interval end time set. -/
def mkWriteTimeSeriesWireReq (projectID : String) (req : WriteTimeSeriesRequest) :
    WireCreateTimeSeriesRequest :=
  { name := "projects/" ++ projectID
    timeSeries := req.timeSeries.map fun ts =>
      { metric := { type := ts.metricType, labels := ts.metricLabels }
        resource := { type := ts.resourceType }
        points := ts.values.map fun value =>
          { intervalEnd := value.timestamp
            value := .doubleValue value.value } } }

/-- Effective ListTimeSeries page size: default 100 when not positive. -/
def effListTimeSeriesPageSize (req : ListTimeSeriesRequest) : Int :=
  if req.pageSize ≤ 0 then 100 else req.pageSize

/-- The wire request realMonitoringClient.ListTimeSeries builds (the page
size is an int32 field on the proto). -/
def mkListTimeSeriesWireReq (goParse : String → Option Int) (projectID : String)
    (req : ListTimeSeriesRequest) : WireListTimeSeriesRequest :=
  { name := "projects/" ++ projectID
    filter := req.filter
    intervalStart := req.intervalStart
    intervalEnd := req.intervalEnd
    pageSize := toInt32 (effListTimeSeriesPageSize req)
    pageToken := if req.pageToken ≠ "" then req.pageToken else ""
    aggregation := req.aggregation.map (mkAggregation goParse) }

/-- The typed-value read conversion inside the ListTimeSeries loop: double
verbatim, int64 via float64 conversion, bool as 1.0 / 0.0, and every other
arm leaves the float64 zero value. -/
def typedValueToFloat : WireTypedValue → Float64
  | .doubleValue v => v
  | .int64Value v => (v : Rat)
  | .boolValue b => if b then 1 else 0
  | _ => 0

/-- The per-item translation of the ListTimeSeries loop body. -/
def convertWireTimeSeries (ts : WireTimeSeries) : TimeSeriesData :=
  { metricType := ts.metric.type
    metricLabels := ts.metric.labels
    resourceType := ts.resource.type
    values := ts.points.map fun point =>
      { value := typedValueToFloat point.value
        timestamp := point.intervalEnd } }

/-- realMonitoringClient.ListTimeSeries: pulls at most pageSize items from
the iterator and copies the iterator's continuation token into the
response. -/
def realListTimeSeries (goParse : String → Option Int) (projectID : String)
    (provider : WireListTimeSeriesRequest → ProviderIter WireTimeSeries)
    (req : ListTimeSeriesRequest) : Except String ListTimeSeriesResponse :=
  let pageSize := effListTimeSeriesPageSize req
  let pbReq := mkListTimeSeriesWireReq goParse projectID req
  let it := provider pbReq
  match fetchUpTo convertWireTimeSeries pageSize.toNat it.steps with
  | .error e => .error e
  | .ok result => .ok { timeSeries := result, nextPageToken := it.token }

/-- Effective ListMetricDescriptors page size: default 5 when not
positive. -/
def effListMetricDescriptorsPageSize (req : ListMetricDescriptorsRequest) : Int :=
  if req.pageSize ≤ 0 then 5 else req.pageSize

/-- The wire request realMonitoringClient.ListMetricDescriptors builds. -/
def mkListMetricDescriptorsWireReq (projectID : String)
    (req : ListMetricDescriptorsRequest) : WireListMetricDescriptorsRequest :=
  { name := "projects/" ++ projectID
    filter := req.filter
    pageSize := toInt32 (effListMetricDescriptorsPageSize req)
    pageToken := if req.pageToken ≠ "" then req.pageToken else "" }

/-- The per-item translation of the ListMetricDescriptors loop body: the two
enum switches have no default branch, so unmatched wire enums leave the Go
zero-value empty string; the generic Labels field is never populated. -/
def convertWireDescriptor (md : WireMetricDescriptor) : MetricDescriptor :=
  { type := md.type
    metricKind := match md.metricKind with
      | .gauge => "GAUGE"
      | .delta => "DELTA"
      | .cumulative => "CUMULATIVE"
      | .unspecified => ""
    valueType := match md.valueType with
      | .bool => "BOOL"
      | .int64 => "INT64"
      | .double => "DOUBLE"
      | .string => "STRING"
      | .distribution => "DISTRIBUTION"
      | .unspecified => ""
    description := md.description
    displayName := md.displayName }

/-- realMonitoringClient.ListMetricDescriptors: same page-bounded loop, with
the continuation token copied into the response. -/
def realListMetricDescriptors (projectID : String)
    (provider : WireListMetricDescriptorsRequest → ProviderIter WireMetricDescriptor)
    (req : ListMetricDescriptorsRequest) : Except String ListMetricDescriptorsResponse :=
  let pageSize := effListMetricDescriptorsPageSize req
  let pbReq := mkListMetricDescriptorsWireReq projectID req
  let it := provider pbReq
  match fetchUpTo convertWireDescriptor pageSize.toNat it.steps with
  | .error e => .error e
  | .ok result => .ok { descriptors := result, nextPageToken := it.token }

/-- Effective ListAvailableMetrics page size: default 100 when not
positive. -/
def effListAvailableMetricsPageSize (req : ListAvailableMetricsRequest) : Int :=
  if req.pageSize ≤ 0 then 100 else req.pageSize

/-- The wire request realMonitoringClient.ListAvailableMetrics builds (the
same descriptor-list proto as ListMetricDescriptors). -/
def mkListAvailableMetricsWireReq (projectID : String)
    (req : ListAvailableMetricsRequest) : WireListMetricDescriptorsRequest :=
  { name := "projects/" ++ projectID
    filter := req.filter
    pageSize := toInt32 (effListAvailableMetricsPageSize req)
    pageToken := if req.pageToken ≠ "" then req.pageToken else "" }

/-- The per-item translation of the ListAvailableMetrics loop body: here the
enum switches do have default branches (GAUGE / DOUBLE), the label schema is
surfaced with value type fixed to STRING, and the launch stage string is
rendered only for a non-zero enum code. -/
def convertWireDescriptorToAvailableMetric (md : WireMetricDescriptor) :
    AvailableMetric :=
  { type := md.type
    displayName := md.displayName
    description := md.description
    metricKind := match md.metricKind with
      | .gauge => "GAUGE"
      | .delta => "DELTA"
      | .cumulative => "CUMULATIVE"
      | .unspecified => "GAUGE"
    valueType := match md.valueType with
      | .bool => "BOOL"
      | .int64 => "INT64"
      | .double => "DOUBLE"
      | .string => "STRING"
      | .distribution => "DISTRIBUTION"
      | .unspecified => "DOUBLE"
    unit := md.unit
    labels := md.labels.map fun labelDesc =>
      { key := labelDesc.key
        valueType := "STRING"
        description := labelDesc.description }
    launchStage := if md.launchStage.code ≠ 0 then md.launchStage.str else "" }

/-- realMonitoringClient.ListAvailableMetrics: the same page-bounded loop,
but the function returns the bare slice of metrics — its signature has no
next_page_token, and it.PageInfo().Token is never read. -/
def realListAvailableMetrics (projectID : String)
    (provider : WireListMetricDescriptorsRequest → ProviderIter WireMetricDescriptor)
    (req : ListAvailableMetricsRequest) : Except String (List AvailableMetric) :=
  let pageSize := effListAvailableMetricsPageSize req
  let pbReq := mkListAvailableMetricsWireReq projectID req
  let it := provider pbReq
  fetchUpTo convertWireDescriptorToAvailableMetric pageSize.toNat it.steps

end Monitoring

/-- Claim C3: span-id translation is lossy and non-invertible: PatchTraces
hashes a caller string span id with the polynomial rolling hash
h(s) = fold(h*31 + char) starting at 0, the reverse direction renders a
64-bit value as 16 lowercase hex digits, and for the caller-supplied span id
"abc" formatting the parsed id does not return the original string. -/
theorem span_id_transform_lossy :
    Trace.parseSpanID "abc" = 96354
    ∧ Trace.formatSpanID (Trace.parseSpanID "abc") = "0000000000017862"
    ∧ Trace.formatSpanID (Trace.parseSpanID "abc") ≠ "abc"
    ∧ (Trace.mkPatchTracesWireReq "proj"
        { traceID := "tr1"
          spans := [{ spanID := "abc", name := "op", startTime := 0, endTime := 1 }] }).traces
      = [{ traceId := "tr1"
           spans := [{ spanId := 96354, name := "op", startTime := 0, endTime := 1 }] }] :=
  ⟨by decide, by decide, by decide, rfl⟩

/-- Claim C4 (code bug): the spec requires WriteEntry to flush the buffered
log writer so that a write error is observable synchronously in WriteEntry's
returned error, but the adapter's deferred logger.Flush() discards Flush's
error and the function body unconditionally returns nil: even when the flush
reports an error, WriteEntry returns none. -/
theorem writeEntry_discards_flush_error :
    (Logging.writeEntry (some "transport closed") "app-log"
        { severity := "ERROR", message := "boom" }).err = none
    ∧ (Logging.writeEntry (some "transport closed") "app-log"
        { severity := "ERROR", message := "boom" }).flushed = true
    ∧ ∀ (flushErr : Option String) (logName : String) (entry : Logging.LogEntry),
        (Logging.writeEntry flushErr logName entry).err = none :=
  ⟨rfl, rfl, fun _ _ _ => rfl⟩

/-- Claim C6: WriteTimeSeries encodes every point of every series of every
request as a wire-level double value (the DoubleValue arm of the TypedValue
oneof); the int64 and bool arms are never used on the write path. -/
theorem writeTimeSeries_always_double :
    ∀ (projectID : String) (req : Monitoring.WriteTimeSeriesRequest),
      ((Monitoring.mkWriteTimeSeriesWireReq projectID req).timeSeries.all fun ts =>
        ts.points.all fun p => p.value.isDouble) = true := by
  intro projectID req
  simp only [Monitoring.mkWriteTimeSeriesWireReq, List.all_eq_true, List.mem_map]
  rintro ts ⟨tsd, _, rfl⟩ p hp
  simp only [List.mem_map] at hp
  obtain ⟨v, _, hv⟩ := hp
  rw [← hv]
  rfl

/-- Claim C7: WriteEntry maps the severity strings DEBUG, INFO, WARNING,
ERROR and CRITICAL to the matching provider severity enum, and every other
severity string to INFO. -/
theorem writeEntry_severity_mapping :
    (∀ fe nm msg labs pay ts,
      (Logging.writeEntry fe nm ⟨"DEBUG", msg, labs, pay, ts⟩).logged.severity
        = Logging.Severity.debug)
    ∧ (∀ fe nm msg labs pay ts,
      (Logging.writeEntry fe nm ⟨"INFO", msg, labs, pay, ts⟩).logged.severity
        = Logging.Severity.info)
    ∧ (∀ fe nm msg labs pay ts,
      (Logging.writeEntry fe nm ⟨"WARNING", msg, labs, pay, ts⟩).logged.severity
        = Logging.Severity.warning)
    ∧ (∀ fe nm msg labs pay ts,
      (Logging.writeEntry fe nm ⟨"ERROR", msg, labs, pay, ts⟩).logged.severity
        = Logging.Severity.error)
    ∧ (∀ fe nm msg labs pay ts,
      (Logging.writeEntry fe nm ⟨"CRITICAL", msg, labs, pay, ts⟩).logged.severity
        = Logging.Severity.critical)
    ∧ ∀ fe nm (entry : Logging.LogEntry),
        entry.severity ∉ (["DEBUG", "INFO", "WARNING", "ERROR", "CRITICAL"] : List String) →
        (Logging.writeEntry fe nm entry).logged.severity = Logging.Severity.info := by
  refine ⟨fun _ _ _ _ _ _ => rfl, fun _ _ _ _ _ _ => rfl, fun _ _ _ _ _ _ => rfl,
    fun _ _ _ _ _ _ => rfl, fun _ _ _ _ _ _ => rfl, ?_⟩
  intro fe nm entry h
  simp only [List.mem_cons, List.not_mem_nil, or_false, not_or] at h
  obtain ⟨h1, h2, h3, h4, h5⟩ := h
  simp [Logging.writeEntry, h1, h2, h3, h4, h5]

/-- Witness for the severity-default clause of writeEntry_severity_mapping,
evaluated at the unrecognized severity string TRACE. -/
theorem writeEntry_severity_mapping_witness :
    ("TRACE" ∉ (["DEBUG", "INFO", "WARNING", "ERROR", "CRITICAL"] : List String))
    ∧ (Logging.writeEntry none "app" { severity := "TRACE", message := "m" }).logged.severity
        = Logging.Severity.info :=
  ⟨by decide, writeEntry_severity_mapping.2.2.2.2.2 none "app"
    { severity := "TRACE", message := "m" } (by decide)⟩

/-- Claim C10: the wire metric descriptor built by CreateMetricDescriptor
carries only Type, MetricKind, ValueType, Description and DisplayName — its
label list stays empty and the remaining wire fields stay at their zero
values, and the whole wire request is unchanged by whatever labels the
generic descriptor carries. -/
theorem createMetricDescriptor_drops_labels :
    ∀ (projectID : String) (req : Monitoring.CreateMetricRequest)
      (labs : List (String × String)),
      Monitoring.mkCreateMetricDescriptorWireReq projectID
          { metricDescriptor := { req.metricDescriptor with labels := labs } }
        = Monitoring.mkCreateMetricDescriptorWireReq projectID req
      ∧ (Monitoring.mkCreateMetricDescriptorWireReq projectID req).metricDescriptor.labels = []
      ∧ (Monitoring.mkCreateMetricDescriptorWireReq projectID req).metricDescriptor.unit = ""
      ∧ (Monitoring.mkCreateMetricDescriptorWireReq projectID req).metricDescriptor.launchStage
          = ⟨0, ""⟩ :=
  fun _ _ _ => ⟨rfl, rfl, rfl, rfl⟩

/-- Claim C2: ListTraces loops over indices 0 through page_size inclusive,
so on a clean iterator it returns exactly the first page_size + 1 available
traces, every successful call returns at most page_size + 1 traces, the
effective page_size defaults to 100 when the request value is not positive,
and with page_size 1 and three traces available the adapter indeed returns
two traces. -/
theorem listTraces_off_by_one_bound :
    (∀ pid (req : Trace.ListTracesRequest) (items : List Trace.WireTrace) (tok : String),
      Trace.realListTraces pid (fun _ => ⟨items.map .item, tok⟩) req
        = .ok ((items.take ((Trace.effListTracesPageSize req).toNat + 1)).map
            fun t => Trace.convertProtoToTrace t pid))
    ∧ (∀ pid provider (req : Trace.ListTracesRequest) ts,
      Trace.realListTraces pid provider req = .ok ts →
        ts.length ≤ (Trace.effListTracesPageSize req).toNat + 1)
    ∧ (∀ (req : Trace.ListTracesRequest), req.pageSize ≤ 0 →
        Trace.effListTracesPageSize req = 100)
    ∧ Trace.realListTraces "p"
        (fun _ => ⟨([⟨"t1", []⟩, ⟨"t2", []⟩, ⟨"t3", []⟩] : List Trace.WireTrace).map .item, ""⟩)
        { startTime := 0, endTime := 1, pageSize := 1 }
      = .ok [⟨"t1", "p", []⟩, ⟨"t2", "p", []⟩] := by
  refine ⟨?_, ?_, ?_, ?_⟩
  · intro pid req items tok
    simp [Trace.realListTraces, fetchUpTo_items]
  · intro pid provider req ts h
    simp only [Trace.realListTraces] at h
    exact fetchUpTo_ok_length _ _ _ _ h
  · intro req h
    simp [Trace.effListTracesPageSize, h]
  · rfl

/-- Witness for listTraces_off_by_one_bound: the length bound applied to a
concrete successful call, and the default page size at a request with
page_size 0. -/
theorem listTraces_off_by_one_bound_witness :
    (Trace.realListTraces "p"
        (fun _ => ⟨([⟨"t1", []⟩, ⟨"t2", []⟩, ⟨"t3", []⟩] : List Trace.WireTrace).map .item, ""⟩)
        { startTime := 0, endTime := 1, pageSize := 1 }
      = .ok [⟨"t1", "p", []⟩, ⟨"t2", "p", []⟩])
    ∧ ([(⟨"t1", "p", []⟩ : Trace.TraceData), ⟨"t2", "p", []⟩].length
        ≤ (Trace.effListTracesPageSize { startTime := 0, endTime := 1, pageSize := 1 }).toNat + 1)
    ∧ (({ startTime := 0, endTime := 1, pageSize := 0 } : Trace.ListTracesRequest).pageSize ≤ 0)
    ∧ Trace.effListTracesPageSize { startTime := 0, endTime := 1, pageSize := 0 } = 100 :=
  ⟨rfl,
   listTraces_off_by_one_bound.2.1 "p"
     (fun _ => ⟨([⟨"t1", []⟩, ⟨"t2", []⟩, ⟨"t3", []⟩] : List Trace.WireTrace).map .item, ""⟩)
     { startTime := 0, endTime := 1, pageSize := 1 }
     [⟨"t1", "p", []⟩, ⟨"t2", "p", []⟩] rfl,
   by decide,
   listTraces_off_by_one_bound.2.2.1 { startTime := 0, endTime := 1, pageSize := 0 } (by decide)⟩

/-- Counterexample to claim C5: at the concrete request with page_size 0,
the provider list call built by ListProfiles carries no page size at all —
in particular not the default 100 the claim asserts. -/
theorem listProfiles_no_default_page_size :
    (Profiler.mkListProfilesCall "proj" { projectID := "proj", pageSize := 0 }).pageSize = none
    ∧ (Profiler.mkListProfilesCall "proj" { projectID := "proj", pageSize := 0 }).pageSize
        ≠ some 100 :=
  ⟨rfl, by decide⟩

/-- Claim C5 as amended: ListProfiles forwards page_size to the provider
request only when it is positive; when the requested page_size is not
positive the page size is left unset on the provider call (no local default
of 100), and the adapter returns every profile of the provider's single
response page. -/
theorem listProfiles_page_size_passthrough :
    (∀ pid (req : Profiler.ListProfilesRequest), req.pageSize ≤ 0 →
      (Profiler.mkListProfilesCall pid req).pageSize = none)
    ∧ (∀ pid (req : Profiler.ListProfilesRequest), 0 < req.pageSize →
      (Profiler.mkListProfilesCall pid req).pageSize = some req.pageSize)
    ∧ (∀ (now : Timestamp) pid (response : Profiler.ApiListProfilesResponse)
        (req : Profiler.ListProfilesRequest),
      Profiler.realListProfiles now pid (fun _ => .ok response) req
        = .ok (response.profiles.map (Profiler.convertAPIProfileToProfile now))) := by
  refine ⟨?_, ?_, ?_⟩
  · intro pid req h
    simp [Profiler.mkListProfilesCall, not_lt.mpr h]
  · intro pid req h
    simp [Profiler.mkListProfilesCall, h]
  · intro now pid response req
    rfl

/-- Witness for listProfiles_page_size_passthrough at page_size 0 (left
unset) and page_size 7 (passed through). -/
theorem listProfiles_page_size_passthrough_witness :
    (({ projectID := "proj", pageSize := 0 } : Profiler.ListProfilesRequest).pageSize ≤ 0)
    ∧ (Profiler.mkListProfilesCall "proj" { projectID := "proj", pageSize := 0 }).pageSize = none
    ∧ ((0 : Int) < ({ projectID := "proj", pageSize := 7 } : Profiler.ListProfilesRequest).pageSize)
    ∧ (Profiler.mkListProfilesCall "proj" { projectID := "proj", pageSize := 7 }).pageSize
        = some 7 :=
  ⟨by decide,
   listProfiles_page_size_passthrough.1 "proj" _ (by decide),
   by decide,
   listProfiles_page_size_passthrough.2.1 "proj" { projectID := "proj", pageSize := 7 } (by decide)⟩

/-- Claim C8: CreateMetricDescriptor translates the metric_kind strings
GAUGE, DELTA and CUMULATIVE to the matching wire enum and everything else to
GAUGE, and the value_type strings BOOL, INT64, DOUBLE, STRING and
DISTRIBUTION to the matching wire enum and everything else to DOUBLE. -/
theorem createMetricDescriptor_enum_defaults :
    (∀ pid (req : Monitoring.CreateMetricRequest),
      req.metricDescriptor.metricKind = "GAUGE" →
        (Monitoring.mkCreateMetricDescriptorWireReq pid req).metricDescriptor.metricKind
          = Monitoring.WireMetricKind.gauge)
    ∧ (∀ pid (req : Monitoring.CreateMetricRequest),
      req.metricDescriptor.metricKind = "DELTA" →
        (Monitoring.mkCreateMetricDescriptorWireReq pid req).metricDescriptor.metricKind
          = Monitoring.WireMetricKind.delta)
    ∧ (∀ pid (req : Monitoring.CreateMetricRequest),
      req.metricDescriptor.metricKind = "CUMULATIVE" →
        (Monitoring.mkCreateMetricDescriptorWireReq pid req).metricDescriptor.metricKind
          = Monitoring.WireMetricKind.cumulative)
    ∧ (∀ pid (req : Monitoring.CreateMetricRequest),
      req.metricDescriptor.metricKind ∉ (["GAUGE", "DELTA", "CUMULATIVE"] : List String) →
        (Monitoring.mkCreateMetricDescriptorWireReq pid req).metricDescriptor.metricKind
          = Monitoring.WireMetricKind.gauge)
    ∧ (∀ pid (req : Monitoring.CreateMetricRequest),
      req.metricDescriptor.valueType = "BOOL" →
        (Monitoring.mkCreateMetricDescriptorWireReq pid req).metricDescriptor.valueType
          = Monitoring.WireValueType.bool)
    ∧ (∀ pid (req : Monitoring.CreateMetricRequest),
      req.metricDescriptor.valueType = "INT64" →
        (Monitoring.mkCreateMetricDescriptorWireReq pid req).metricDescriptor.valueType
          = Monitoring.WireValueType.int64)
    ∧ (∀ pid (req : Monitoring.CreateMetricRequest),
      req.metricDescriptor.valueType = "DOUBLE" →
        (Monitoring.mkCreateMetricDescriptorWireReq pid req).metricDescriptor.valueType
          = Monitoring.WireValueType.double)
    ∧ (∀ pid (req : Monitoring.CreateMetricRequest),
      req.metricDescriptor.valueType = "STRING" →
        (Monitoring.mkCreateMetricDescriptorWireReq pid req).metricDescriptor.valueType
          = Monitoring.WireValueType.string)
    ∧ (∀ pid (req : Monitoring.CreateMetricRequest),
      req.metricDescriptor.valueType = "DISTRIBUTION" →
        (Monitoring.mkCreateMetricDescriptorWireReq pid req).metricDescriptor.valueType
          = Monitoring.WireValueType.distribution)
    ∧ (∀ pid (req : Monitoring.CreateMetricRequest),
      req.metricDescriptor.valueType
          ∉ (["BOOL", "INT64", "DOUBLE", "STRING", "DISTRIBUTION"] : List String) →
        (Monitoring.mkCreateMetricDescriptorWireReq pid req).metricDescriptor.valueType
          = Monitoring.WireValueType.double) := by
  refine ⟨?_, ?_, ?_, ?_, ?_, ?_, ?_, ?_, ?_, ?_⟩
  · intro pid req h
    simp [Monitoring.mkCreateMetricDescriptorWireReq, h]
  · intro pid req h
    simp [Monitoring.mkCreateMetricDescriptorWireReq, h]
  · intro pid req h
    simp [Monitoring.mkCreateMetricDescriptorWireReq, h]
  · intro pid req h
    simp only [List.mem_cons, List.not_mem_nil, or_false, not_or] at h
    obtain ⟨h1, h2, h3⟩ := h
    simp [Monitoring.mkCreateMetricDescriptorWireReq, h1, h2, h3]
  · intro pid req h
    simp [Monitoring.mkCreateMetricDescriptorWireReq, h]
  · intro pid req h
    simp [Monitoring.mkCreateMetricDescriptorWireReq, h]
  · intro pid req h
    simp [Monitoring.mkCreateMetricDescriptorWireReq, h]
  · intro pid req h
    simp [Monitoring.mkCreateMetricDescriptorWireReq, h]
  · intro pid req h
    simp [Monitoring.mkCreateMetricDescriptorWireReq, h]
  · intro pid req h
    simp only [List.mem_cons, List.not_mem_nil, or_false, not_or] at h
    obtain ⟨h1, h2, h3, h4, h5⟩ := h
    simp [Monitoring.mkCreateMetricDescriptorWireReq, h1, h2, h3, h4, h5]

/-- Witness for createMetricDescriptor_enum_defaults: the DELTA clause, the
unrecognized metric-kind clause at RATE, the INT64 clause, and the
unrecognized value-type clause at MONEY. -/
theorem createMetricDescriptor_enum_defaults_witness :
    (({ metricDescriptor := { type := "t", metricKind := "DELTA", valueType := "INT64" } }
        : Monitoring.CreateMetricRequest).metricDescriptor.metricKind = "DELTA")
    ∧ (Monitoring.mkCreateMetricDescriptorWireReq "p"
        { metricDescriptor := { type := "t", metricKind := "DELTA", valueType := "INT64" } }).metricDescriptor.metricKind
        = Monitoring.WireMetricKind.delta
    ∧ ("RATE" ∉ (["GAUGE", "DELTA", "CUMULATIVE"] : List String))
    ∧ (Monitoring.mkCreateMetricDescriptorWireReq "p"
        { metricDescriptor := { type := "t", metricKind := "RATE", valueType := "MONEY" } }).metricDescriptor.metricKind
        = Monitoring.WireMetricKind.gauge
    ∧ (Monitoring.mkCreateMetricDescriptorWireReq "p"
        { metricDescriptor := { type := "t", metricKind := "DELTA", valueType := "INT64" } }).metricDescriptor.valueType
        = Monitoring.WireValueType.int64
    ∧ ("MONEY" ∉ (["BOOL", "INT64", "DOUBLE", "STRING", "DISTRIBUTION"] : List String))
    ∧ (Monitoring.mkCreateMetricDescriptorWireReq "p"
        { metricDescriptor := { type := "t", metricKind := "RATE", valueType := "MONEY" } }).metricDescriptor.valueType
        = Monitoring.WireValueType.double :=
  ⟨rfl,
   createMetricDescriptor_enum_defaults.2.1 "p" _ rfl,
   by decide,
   createMetricDescriptor_enum_defaults.2.2.2.1 "p"
     { metricDescriptor := { type := "t", metricKind := "RATE", valueType := "MONEY" } } (by decide),
   createMetricDescriptor_enum_defaults.2.2.2.2.2.1 "p" _ rfl,
   by decide,
   createMetricDescriptor_enum_defaults.2.2.2.2.2.2.2.2.2 "p"
     { metricDescriptor := { type := "t", metricKind := "RATE", valueType := "MONEY" } } (by decide)⟩

/-- Claim C9: a ListTimeSeries request whose aggregation alignment_period
fails duration parsing does not produce a translation error — the adapter
substitutes a 60-second (60e9 ns) alignment period in the wire request — and
an unset or unrecognized per_series_aligner is substituted with
ALIGN_MEAN. -/
theorem listTimeSeries_aggregation_defaults :
    ∀ (goParse : String → Option Int) (pid : String)
      (req : Monitoring.ListTimeSeriesRequest) (agg : Monitoring.AggregationConfig)
      (items : List Monitoring.WireTimeSeries) (tok : String),
      goParse agg.alignmentPeriod = none →
      agg.perSeriesAligner
          ∉ (["ALIGN_MEAN", "ALIGN_MAX", "ALIGN_MIN", "ALIGN_SUM"] : List String) →
      ((Monitoring.mkListTimeSeriesWireReq goParse pid
          { req with aggregation := some agg }).aggregation.map
            Monitoring.WireAggregation.alignmentPeriod = some (60 * 1000000000))
      ∧ ((Monitoring.mkListTimeSeriesWireReq goParse pid
          { req with aggregation := some agg }).aggregation.map
            Monitoring.WireAggregation.perSeriesAligner
          = some Monitoring.WireAligner.alignMean)
      ∧ (Monitoring.realListTimeSeries goParse pid (fun _ => ⟨items.map .item, tok⟩)
          { req with aggregation := some agg }).isOk = true := by
  intro goParse pid req agg items tok hparse halign
  simp only [List.mem_cons, List.not_mem_nil, or_false, not_or] at halign
  obtain ⟨h1, h2, h3, h4⟩ := halign
  refine ⟨?_, ?_, ?_⟩
  · simp [Monitoring.mkListTimeSeriesWireReq, Monitoring.mkAggregation,
      Monitoring.parseDuration, hparse]
  · simp [Monitoring.mkListTimeSeriesWireReq, Monitoring.mkAggregation, h1, h2, h3, h4]
  · simp [Monitoring.realListTimeSeries, fetchUpTo_items, Except.isOk, Except.toBool]

/-- Witness for listTimeSeries_aggregation_defaults at the concrete
alignment period string not-a-duration (rejected by the parse oracle) and an
empty aligner string. -/
theorem listTimeSeries_aggregation_defaults_witness :
    ((fun _ : String => (none : Option Int)) "not-a-duration" = none)
    ∧ ("" ∉ (["ALIGN_MEAN", "ALIGN_MAX", "ALIGN_MIN", "ALIGN_SUM"] : List String))
    ∧ ((Monitoring.mkListTimeSeriesWireReq (fun _ => none) "p"
        { aggregation := some { alignmentPeriod := "not-a-duration" } }).aggregation.map
          Monitoring.WireAggregation.alignmentPeriod = some (60 * 1000000000))
    ∧ ((Monitoring.mkListTimeSeriesWireReq (fun _ => none) "p"
        { aggregation := some { alignmentPeriod := "not-a-duration" } }).aggregation.map
          Monitoring.WireAggregation.perSeriesAligner
        = some Monitoring.WireAligner.alignMean)
    ∧ (Monitoring.realListTimeSeries (fun _ => none) "p" (fun _ => ⟨[], "tk"⟩)
        { aggregation := some { alignmentPeriod := "not-a-duration" } }).isOk = true := by
  have h := listTimeSeries_aggregation_defaults (fun _ => none) "p" {}
    { alignmentPeriod := "not-a-duration" } [] "tk" rfl (by decide)
  exact ⟨rfl, by decide, h.1, h.2.1, h.2.2⟩

/-- Counterexample to claim C1: ListAvailableMetrics does not copy the
provider's continuation token anywhere — its Go signature returns a bare
metric slice with no next_page_token, and at a concrete request its result
is identical whether the provider token is tok-next or empty. -/
theorem listAvailableMetrics_drops_token :
    Monitoring.realListAvailableMetrics "proj" (fun _ => ⟨[], "tok-next"⟩) { pageSize := 3 }
      = Monitoring.realListAvailableMetrics "proj" (fun _ => ⟨[], ""⟩) { pageSize := 3 }
    ∧ Monitoring.realListAvailableMetrics "proj" (fun _ => ⟨[], "tok-next"⟩) { pageSize := 3 }
      = .ok [] :=
  ⟨rfl, rfl⟩

/-- Claim C1 as amended: all three monitoring listers request one provider
page of size page_size (defaulting to 100, 5 and 100 respectively when the
requested page_size is not positive, as an int32 wire field) and pull at
most page_size items from the result iterator, stopping early on
exhaustion; ListTimeSeries and ListMetricDescriptors copy the provider's
continuation token into next_page_token on their responses, while
ListAvailableMetrics returns a bare metric list whose value is independent
of the provider token. -/
theorem monitoring_listers_page_bounded :
    (∀ (goParse : String → Option Int) pid (req : Monitoring.ListTimeSeriesRequest),
      (Monitoring.mkListTimeSeriesWireReq goParse pid req).pageSize
        = toInt32 (Monitoring.effListTimeSeriesPageSize req))
    ∧ (∀ (req : Monitoring.ListTimeSeriesRequest), req.pageSize ≤ 0 →
        Monitoring.effListTimeSeriesPageSize req = 100)
    ∧ (∀ goParse pid (req : Monitoring.ListTimeSeriesRequest)
        (items : List Monitoring.WireTimeSeries) (tok : String),
      Monitoring.realListTimeSeries goParse pid (fun _ => ⟨items.map .item, tok⟩) req
        = .ok { timeSeries :=
                  (items.take (Monitoring.effListTimeSeriesPageSize req).toNat).map
                    Monitoring.convertWireTimeSeries
                nextPageToken := tok })
    ∧ (∀ goParse pid provider (req : Monitoring.ListTimeSeriesRequest) resp,
      Monitoring.realListTimeSeries goParse pid provider req = .ok resp →
        resp.timeSeries.length ≤ (Monitoring.effListTimeSeriesPageSize req).toNat
        ∧ resp.nextPageToken
            = (provider (Monitoring.mkListTimeSeriesWireReq goParse pid req)).token)
    ∧ (∀ pid (req : Monitoring.ListMetricDescriptorsRequest),
      (Monitoring.mkListMetricDescriptorsWireReq pid req).pageSize
        = toInt32 (Monitoring.effListMetricDescriptorsPageSize req))
    ∧ (∀ (req : Monitoring.ListMetricDescriptorsRequest), req.pageSize ≤ 0 →
        Monitoring.effListMetricDescriptorsPageSize req = 5)
    ∧ (∀ pid (req : Monitoring.ListMetricDescriptorsRequest)
        (items : List Monitoring.WireMetricDescriptor) (tok : String),
      Monitoring.realListMetricDescriptors pid (fun _ => ⟨items.map .item, tok⟩) req
        = .ok { descriptors :=
                  (items.take (Monitoring.effListMetricDescriptorsPageSize req).toNat).map
                    Monitoring.convertWireDescriptor
                nextPageToken := tok })
    ∧ (∀ pid provider (req : Monitoring.ListMetricDescriptorsRequest) resp,
      Monitoring.realListMetricDescriptors pid provider req = .ok resp →
        resp.descriptors.length ≤ (Monitoring.effListMetricDescriptorsPageSize req).toNat
        ∧ resp.nextPageToken
            = (provider (Monitoring.mkListMetricDescriptorsWireReq pid req)).token)
    ∧ (∀ pid (req : Monitoring.ListAvailableMetricsRequest),
      (Monitoring.mkListAvailableMetricsWireReq pid req).pageSize
        = toInt32 (Monitoring.effListAvailableMetricsPageSize req))
    ∧ (∀ (req : Monitoring.ListAvailableMetricsRequest), req.pageSize ≤ 0 →
        Monitoring.effListAvailableMetricsPageSize req = 100)
    ∧ (∀ pid (req : Monitoring.ListAvailableMetricsRequest)
        (items : List Monitoring.WireMetricDescriptor) (tok : String),
      Monitoring.realListAvailableMetrics pid (fun _ => ⟨items.map .item, tok⟩) req
        = .ok ((items.take (Monitoring.effListAvailableMetricsPageSize req).toNat).map
            Monitoring.convertWireDescriptorToAvailableMetric))
    ∧ (∀ pid provider (req : Monitoring.ListAvailableMetricsRequest) metrics,
      Monitoring.realListAvailableMetrics pid provider req = .ok metrics →
        metrics.length ≤ (Monitoring.effListAvailableMetricsPageSize req).toNat)
    ∧ (∀ pid (req : Monitoring.ListAvailableMetricsRequest)
        (steps : List (IterStep Monitoring.WireMetricDescriptor)) (tok tok2 : String),
      Monitoring.realListAvailableMetrics pid (fun _ => ⟨steps, tok⟩) req
        = Monitoring.realListAvailableMetrics pid (fun _ => ⟨steps, tok2⟩) req) := by
  refine ⟨?_, ?_, ?_, ?_, ?_, ?_, ?_, ?_, ?_, ?_, ?_, ?_, ?_⟩
  · intro goParse pid req
    rfl
  · intro req h
    simp [Monitoring.effListTimeSeriesPageSize, h]
  · intro goParse pid req items tok
    simp [Monitoring.realListTimeSeries, fetchUpTo_items]
  · intro goParse pid provider req resp h
    simp only [Monitoring.realListTimeSeries] at h
    cases hfetch : fetchUpTo Monitoring.convertWireTimeSeries
        (Monitoring.effListTimeSeriesPageSize req).toNat
        (provider (Monitoring.mkListTimeSeriesWireReq goParse pid req)).steps with
    | error e => rw [hfetch] at h; cases h
    | ok result =>
      rw [hfetch] at h
      cases h
      exact ⟨fetchUpTo_ok_length _ _ _ _ hfetch, rfl⟩
  · intro pid req
    rfl
  · intro req h
    simp [Monitoring.effListMetricDescriptorsPageSize, h]
  · intro pid req items tok
    simp [Monitoring.realListMetricDescriptors, fetchUpTo_items]
  · intro pid provider req resp h
    simp only [Monitoring.realListMetricDescriptors] at h
    cases hfetch : fetchUpTo Monitoring.convertWireDescriptor
        (Monitoring.effListMetricDescriptorsPageSize req).toNat
        (provider (Monitoring.mkListMetricDescriptorsWireReq pid req)).steps with
    | error e => rw [hfetch] at h; cases h
    | ok result =>
      rw [hfetch] at h
      cases h
      exact ⟨fetchUpTo_ok_length _ _ _ _ hfetch, rfl⟩
  · intro pid req
    rfl
  · intro req h
    simp [Monitoring.effListAvailableMetricsPageSize, h]
  · intro pid req items tok
    simp [Monitoring.realListAvailableMetrics, fetchUpTo_items]
  · intro pid provider req metrics h
    simp only [Monitoring.realListAvailableMetrics] at h
    exact fetchUpTo_ok_length _ _ _ _ h
  · intro pid req steps tok tok2
    rfl

/-- Witness for monitoring_listers_page_bounded: the default page sizes at
requests with page_size 0 and the successful-call clauses at concrete empty
provider pages. -/
theorem monitoring_listers_page_bounded_witness :
    (Monitoring.effListTimeSeriesPageSize {} = 100)
    ∧ (Monitoring.effListMetricDescriptorsPageSize {} = 5)
    ∧ (Monitoring.effListAvailableMetricsPageSize {} = 100)
    ∧ (([] : List Monitoring.TimeSeriesData).length
          ≤ (Monitoring.effListTimeSeriesPageSize {}).toNat
        ∧ "tk" = ((fun _ => (⟨[], "tk"⟩ : ProviderIter Monitoring.WireTimeSeries))
            (Monitoring.mkListTimeSeriesWireReq (fun _ => none) "p" {})).token)
    ∧ (([] : List Monitoring.MetricDescriptor).length
          ≤ (Monitoring.effListMetricDescriptorsPageSize {}).toNat
        ∧ "tk" = ((fun _ => (⟨[], "tk"⟩ : ProviderIter Monitoring.WireMetricDescriptor))
            (Monitoring.mkListMetricDescriptorsWireReq "p" {})).token)
    ∧ (([] : List Monitoring.AvailableMetric).length
          ≤ (Monitoring.effListAvailableMetricsPageSize {}).toNat) := by
  refine ⟨monitoring_listers_page_bounded.2.1 {} (by decide),
    monitoring_listers_page_bounded.2.2.2.2.2.1 {} (by decide),
    monitoring_listers_page_bounded.2.2.2.2.2.2.2.2.2.1 {} (by decide),
    monitoring_listers_page_bounded.2.2.2.1 (fun _ => none) "p"
      (fun _ => ⟨[], "tk"⟩) {} { timeSeries := [], nextPageToken := "tk" } rfl,
    monitoring_listers_page_bounded.2.2.2.2.2.2.2.1 "p"
      (fun _ => ⟨[], "tk"⟩) {} { descriptors := [], nextPageToken := "tk" } rfl,
    monitoring_listers_page_bounded.2.2.2.2.2.2.2.2.2.2.2.1 "p"
      (fun _ => ⟨[], "tk"⟩) {} [] rfl⟩
